import Mathlib

/-!
Verification of the NeuralVision object-detection frontend
(src/components/ObjectDetector.jsx and the TransferLearner component).

The development shallowly embeds the two stateful components:

* the `detect` scheduling loop of `ObjectDetector` (frame-rate cap,
  source selection, FPS window, error handling, pause and mode-switch
  interleavings at the single `await model.detect` suspension point);
* the bounding-box overlay geometry (cover-fit scaling, centering
  offsets, margin clamping, dimension guards);
* the `TransferLearner` wrapper around the external knn-classifier
  store (addExample / predict loop / clearAll).

Times, pixel coordinates and scores are rationals; machine floats in
the source carry exact small constants (41, 1000, 10, 24) so ℚ is a
faithful carrier for every property proved here.  String class labels
are coded as naturals.
-/

namespace NV

/-! ## Geometry: model-space boxes and display styles -/

/-- A model-space bounding box, the `pred.bbox = [x, y, width, height]`
array returned by the detection model. -/
structure BBox where
  x : ℚ
  y : ℚ
  w : ℚ
  h : ℚ
deriving DecidableEq

/-- One detection result: class label (coded as ℕ), confidence score,
and model-space box. -/
structure Detection where
  label : ℕ
  score : ℚ
  bbox : BBox
deriving DecidableEq

/-- The raw (pre-clamping) CSS style computed by the overlay,
source lines 215-220. -/
structure RawStyle where
  left : ℚ
  top : ℚ
  width : ℚ
  height : ℚ
deriving DecidableEq

/-- Cover-fit mapping of a model-space box into container coordinates,
translated from source lines 205-220 of ObjectDetector.jsx. -/
def coverRawStyle (b : BBox) (videoWidth videoHeight containerWidth containerHeight : ℚ) :
    RawStyle :=
  let scale := max (containerWidth / videoWidth) (containerHeight / videoHeight)
  let displayedWidth := videoWidth * scale
  let displayedHeight := videoHeight * scale
  let offsetX := (containerWidth - displayedWidth) / 2
  let offsetY := (containerHeight - displayedHeight) / 2
  ⟨b.x * scale + offsetX, b.y * scale + offsetY, b.w * scale, b.h * scale⟩

/-- The clamped style handed to the box element, source lines 222-234:
`left = max(MARGIN, min(rawLeft, containerWidth - rawWidth - MARGIN))`,
same for `top`; `width`/`height` stay raw, `maxWidth`/`maxHeight` cap
the rendered extent. -/
structure ClampedStyle where
  left : ℚ
  top : ℚ
  width : ℚ
  height : ℚ
  maxWidth : ℚ
  maxHeight : ℚ
deriving DecidableEq

/-- Clamping with the fixed `MARGIN = 10`, source lines 222-234. -/
def clampStyle (raw : RawStyle) (containerWidth containerHeight : ℚ) : ClampedStyle :=
  let MARGIN : ℚ := 10
  let left := max MARGIN (min raw.left (containerWidth - raw.width - MARGIN))
  let top := max MARGIN (min raw.top (containerHeight - raw.height - MARGIN))
  ⟨left, top, raw.width, raw.height,
    containerWidth - left - MARGIN, containerHeight - top - MARGIN⟩

/-- The DOM element the overlay reads its geometry from:
`videoWidth`/`naturalWidth` pairs (zero encodes the JS falsy case) and
the parent container's client size (`none` = not laid out yet). -/
structure SourceElement where
  videoWidth : ℚ
  naturalWidth : ℚ
  videoHeight : ℚ
  naturalHeight : ℚ
  container : Option (ℚ × ℚ)
deriving DecidableEq

/-- JS `element.videoWidth || element.naturalWidth` (line 196). -/
def effWidth (el : SourceElement) : ℚ :=
  if el.videoWidth = 0 then el.naturalWidth else el.videoWidth

/-- JS `element.videoHeight || element.naturalHeight` (line 197). -/
def effHeight (el : SourceElement) : ℚ :=
  if el.videoHeight = 0 then el.naturalHeight else el.videoHeight

/-- The per-prediction overlay computation, source lines 193-234:
`none` models the early `return null` paths (missing element, missing
container, zero dimensions); otherwise the clamped style is produced. -/
def overlayStyle (element : Option SourceElement) (b : BBox) : Option ClampedStyle :=
  match element with
  | none => none
  | some el =>
    match el.container with
    | none => none
    | some (cw, ch) =>
      if effWidth el = 0 ∨ effHeight el = 0 then none
      else some (clampStyle (coverRawStyle b (effWidth el) (effHeight el) cw ch) cw ch)

/-! Spec-side formulation of the cover-fit mapping, written from the
words of spec section 4.2 ("CoordinateMapper", steps 1-4), used to
state the refinement claim C4 against `coverRawStyle`. -/

/-- Spec 4.2 step 1: `scale = max(containerWidth / sourceWidth, containerHeight / sourceHeight)`. -/
def specScale (sourceWidth sourceHeight containerWidth containerHeight : ℚ) : ℚ :=
  max (containerWidth / sourceWidth) (containerHeight / sourceHeight)

/-- Spec 4.2 step 3: `offsetX = (containerWidth - displayedWidth) / 2`. -/
def specOffsetX (sw sh cw ch : ℚ) : ℚ := (cw - sw * specScale sw sh cw ch) / 2

/-- Spec 4.2 step 3: `offsetY = (containerHeight - displayedHeight) / 2`. -/
def specOffsetY (sw sh cw ch : ℚ) : ℚ := (ch - sh * specScale sw sh cw ch) / 2

/-- Spec 4.2 step 4: the raw display box from the spec formulas. -/
def specRawStyle (b : BBox) (sw sh cw ch : ℚ) : RawStyle :=
  ⟨b.x * specScale sw sh cw ch + specOffsetX sw sh cw ch,
   b.y * specScale sw sh cw ch + specOffsetY sw sh cw ch,
   b.w * specScale sw sh cw ch,
   b.h * specScale sw sh cw ch⟩

/-! ## The detection scheduler -/

/-- The `mode` state, `'live' | 'upload'` (line 15). -/
inductive Mode where
  | live
  | upload
deriving DecidableEq

/-- The `mediaFile.type` field, `'image' | 'video'` (line 16). -/
inductive MediaType where
  | image
  | video
deriving DecidableEq

/-- The `fpsRef` mutable record (line 32):
`{ lastFrameTime, lastFpsTime, frameCount }`. -/
structure FpsRef where
  lastFrameTime : ℚ
  lastFpsTime : ℚ
  frameCount : ℕ
deriving DecidableEq

/-- The component state read and written by one run of `detect`:
model availability, mode, uploaded media type, current predictions,
displayed fps, pause flag, and the fpsRef record. -/
structure DetectorState where
  modelLoaded : Bool
  mode : Mode
  mediaFile : Option MediaType
  predictions : List Detection
  fps : ℕ
  isPaused : Bool
  fpsRef : FpsRef
deriving DecidableEq

/-- The per-tick environment: the clock value `performance.now()`, the
readiness of the possible sources, the outcome the external
`model.detect` call would yield this tick, and whether the user's
pause / mode-toggle actions land during the `await` window. -/
structure TickEnv where
  now : ℚ
  webcamReadyState : ℕ
  mediaPresent : Bool
  mediaPaused : Bool
  mediaReadyState : ℕ
  inferResult : Except Unit (List Detection)
  pauseDuringAwait : Bool
  switchDuringAwait : Bool

/-- Observable events of one step: the issuing of an inference call
(carrying its clock time) and the settling of that call. -/
inductive Ev where
  | issue (t : ℚ)
  | settle
deriving DecidableEq

/-- What a step hands back to the driver: its event list and whether it
re-armed `requestAnimationFrame` (lines 53 and 87-89). -/
structure StepOut where
  events : List Ev
  rearm : Bool
deriving DecidableEq

/-- The `videoEl` selection of lines 58-68: webcam ready in live mode,
playing and buffered uploaded video, or a mounted uploaded image. -/
def frameAvailable (s : DetectorState) (e : TickEnv) : Bool :=
  (decide (s.mode = Mode.live) && decide (e.webcamReadyState = 4))
  || (decide (s.mode = Mode.upload) && e.mediaPresent
        && decide (s.mediaFile = some MediaType.video)
        && !e.mediaPaused && decide (2 ≤ e.mediaReadyState))
  || (decide (s.mode = Mode.upload) && e.mediaPresent
        && decide (s.mediaFile = some MediaType.image))

/-- The re-arm condition of line 87, over the values captured by the
`detect` closure at step start. -/
def rearmFlag (s : DetectorState) : Bool :=
  decide (s.mode = Mode.live)
  || (decide (s.mode = Mode.upload) && decide (s.mediaFile = some MediaType.video))

/-- The mode-toggle button handler's flip (lines 277-278). -/
def toggleMode : Mode → Mode
  | Mode.live => Mode.upload
  | Mode.upload => Mode.live

/-- State changes applied while `await model.detect` is pending: the
mode-toggle onClick (lines 276-280: flip the mode, clear predictions)
and the pause button (line 296), if they land in the await window. -/
def applyAwait (s : DetectorState) (e : TickEnv) : DetectorState :=
  let s1 := if e.switchDuringAwait then
      { s with mode := toggleMode s.mode, predictions := ([] : List Detection) }
    else s
  if e.pauseDuringAwait then { s1 with isPaused := true } else s1

/-- The continuation after the await settles (lines 80-84):
`setPredictions(results)` on success, `console.error` (unobserved) and
no state change on failure. -/
def applyResult (s : DetectorState) (r : Except Unit (List Detection)) : DetectorState :=
  match r with
  | Except.ok results => { s with predictions := results }
  | Except.error _ => s

/-- One frame-processing cycle once a usable frame was found (lines
70-85): FPS window bookkeeping, then the inference call with the await
interleavings and the result continuation.  `lastFrameTime` was set to
`e.now` at line 56 before this point. -/
def inferenceStep (s : DetectorState) (e : TickEnv) : DetectorState :=
  let fc := s.fpsRef.frameCount + 1
  let s1 :=
    if 1000 ≤ e.now - s.fpsRef.lastFpsTime then
      { s with fps := fc, fpsRef := (⟨e.now, e.now, 0⟩ : FpsRef) }
    else
      { s with fpsRef := (⟨e.now, s.fpsRef.lastFpsTime, fc⟩ : FpsRef) }
  applyResult (applyAwait s1 e) e.inferResult

/-- One invocation of the `detect` callback (lines 46-90). -/
def detect (s : DetectorState) (e : TickEnv) : DetectorState × StepOut :=
  if s.isPaused || !s.modelLoaded then (s, ⟨[], false⟩)
  else if e.now - s.fpsRef.lastFrameTime < 41 then (s, ⟨[], true⟩)
  else if frameAvailable s e then
    (inferenceStep s e, ⟨[Ev.issue e.now, Ev.settle], rearmFlag s⟩)
  else
    ({ s with fpsRef := (⟨e.now, s.fpsRef.lastFpsTime, s.fpsRef.frameCount⟩ : FpsRef) },
     ⟨[], rearmFlag s⟩)

/-- Whether a step starting in `s` under environment `e` issues an
inference call: same guard structure as `detect`. -/
def issues (s : DetectorState) (e : TickEnv) : Bool :=
  if s.isPaused || !s.modelLoaded then false
  else if e.now - s.fpsRef.lastFrameTime < 41 then false
  else frameAvailable s e

/-- Whether the tumbling one-second FPS window elapses on this step
(line 73). -/
def windowElapsed (s : DetectorState) (e : TickEnv) : Bool :=
  decide (1000 ≤ e.now - s.fpsRef.lastFpsTime)

/-- Run a sequence of ticks of one scheduler chain, concatenating the
event traces. -/
def runTrace (s : DetectorState) : List TickEnv → DetectorState × List Ev
  | [] => (s, [])
  | e :: rest =>
      ((runTrace (detect s e).1 rest).1,
       (detect s e).2.events ++ (runTrace (detect s e).1 rest).2)

/-- A trace is paced when no `issue` occurs while a previous call is
still unsettled: the boolean flag tracks whether a call is in flight. -/
def pacedFrom (inFlight : Bool) : List Ev → Bool
  | [] => true
  | Ev.issue _ :: rest => !inFlight && pacedFrom true rest
  | Ev.settle :: rest => pacedFrom false rest

/-- Non-overlap predicate on a whole trace. -/
def paced (tr : List Ev) : Bool := pacedFrom false tr

/-- The clock times at which inference calls were issued along a trace. -/
def issueTimes : List Ev → List ℚ
  | [] => []
  | Ev.issue t :: rest => t :: issueTimes rest
  | Ev.settle :: rest => issueTimes rest

/-! ## Basic lemmas about one step -/

lemma applyResult_fpsRef (s : DetectorState) (r : Except Unit (List Detection)) :
    (applyResult s r).fpsRef = s.fpsRef := by
  cases r <;> rfl

lemma applyAwait_fpsRef (s : DetectorState) (e : TickEnv) :
    (applyAwait s e).fpsRef = s.fpsRef := by
  unfold applyAwait
  split <;> split <;> rfl

lemma inferenceStep_lastFrameTime (s : DetectorState) (e : TickEnv) :
    (inferenceStep s e).fpsRef.lastFrameTime = e.now := by
  unfold inferenceStep
  rw [applyResult_fpsRef, applyAwait_fpsRef]
  split <;> rfl

lemma detect_events (s : DetectorState) (e : TickEnv) :
    (detect s e).2.events = if issues s e then [Ev.issue e.now, Ev.settle] else [] := by
  unfold detect issues
  split
  · rfl
  · split
    · rfl
    · split <;> rfl

lemma detect_lastFrameTime (s : DetectorState) (e : TickEnv) :
    (detect s e).1.fpsRef.lastFrameTime =
      if s.isPaused || !s.modelLoaded then s.fpsRef.lastFrameTime
      else if e.now - s.fpsRef.lastFrameTime < 41 then s.fpsRef.lastFrameTime
      else e.now := by
  unfold detect
  split
  · rfl
  · split
    · rfl
    · split
      · exact inferenceStep_lastFrameTime s e
      · rfl

lemma detect_lastFrameTime_mono (s : DetectorState) (e : TickEnv) :
    s.fpsRef.lastFrameTime ≤ (detect s e).1.fpsRef.lastFrameTime := by
  rw [detect_lastFrameTime]
  split
  · exact le_refl _
  · split
    · exact le_refl _
    · rename_i h2
      push_neg at h2
      linarith

lemma issues_time_bound (s : DetectorState) (e : TickEnv)
    (h : issues s e = true) : s.fpsRef.lastFrameTime + 41 ≤ e.now := by
  unfold issues at h
  split at h
  · exact absurd h (by simp)
  · split at h
    · exact absurd h (by simp)
    · rename_i h2
      push_neg at h2
      linarith

lemma issues_lastFrameTime (s : DetectorState) (e : TickEnv)
    (h : issues s e = true) : (detect s e).1.fpsRef.lastFrameTime = e.now := by
  unfold issues at h
  rw [detect_lastFrameTime]
  split at h
  · exact absurd h (by simp)
  · split at h
    · exact absurd h (by simp)
    · rename_i h1 h2
      rw [if_neg h1, if_neg h2]

lemma issueTimes_append (a b : List Ev) :
    issueTimes (a ++ b) = issueTimes a ++ issueTimes b := by
  induction a with
  | nil => rfl
  | cons hd tl ih =>
      cases hd <;> simp [issueTimes, ih]

/-! ## Trace invariants for the scheduler -/

lemma paced_runTrace (envs : List TickEnv) :
    ∀ s : DetectorState, paced (runTrace s envs).2 = true := by
  induction envs with
  | nil => intro s; rfl
  | cons e rest ih =>
      intro s
      show paced ((detect s e).2.events ++ (runTrace (detect s e).1 rest).2) = true
      rw [detect_events]
      by_cases h : issues s e = true
      · rw [if_pos h]
        show pacedFrom false (Ev.issue e.now :: Ev.settle ::
          (runTrace (detect s e).1 rest).2) = true
        simp only [pacedFrom, Bool.not_false, Bool.true_and]
        exact ih (detect s e).1
      · rw [if_neg h]
        exact ih (detect s e).1

lemma issueTimes_spaced (envs : List TickEnv) :
    ∀ s : DetectorState,
      List.Pairwise (fun a b => a + 41 ≤ b) (issueTimes (runTrace s envs).2)
      ∧ ∀ t ∈ issueTimes (runTrace s envs).2, s.fpsRef.lastFrameTime + 41 ≤ t := by
  induction envs with
  | nil =>
      intro s
      constructor
      · exact List.Pairwise.nil
      · intro t ht
        simp [runTrace, issueTimes] at ht
  | cons e rest ih =>
      intro s
      have hrw : (runTrace s (e :: rest)).2 =
          (detect s e).2.events ++ (runTrace (detect s e).1 rest).2 := rfl
      rw [hrw, issueTimes_append, detect_events]
      obtain ⟨ihPw, ihBd⟩ := ih (detect s e).1
      by_cases h : issues s e = true
      · rw [if_pos h]
        have hnow : s.fpsRef.lastFrameTime + 41 ≤ e.now := issues_time_bound s e h
        have hlft : (detect s e).1.fpsRef.lastFrameTime = e.now := issues_lastFrameTime s e h
        have hbd : ∀ t ∈ issueTimes (runTrace (detect s e).1 rest).2, e.now + 41 ≤ t := by
          intro t ht
          have := ihBd t ht
          rw [hlft] at this
          exact this
        constructor
        · show List.Pairwise _ (e.now :: _)
          refine List.Pairwise.cons ?_ ihPw
          intro t ht
          exact hbd t ht
        · intro t ht
          rcases List.mem_cons.mp ht with hcase | hcase
          · rw [hcase]; exact hnow
          · have := hbd t hcase
            linarith
      · rw [if_neg h]
        simp only [issueTimes, List.nil_append]
        have hmono := detect_lastFrameTime_mono s e
        constructor
        · exact ihPw
        · intro t ht
          have := ihBd t ht
          linarith

/-! ## TransferLearner: exemplar store and online classifier -/

/-- A feature vector from the embedding model. -/
abbrev Vec := List ℚ

/-- A prediction as returned by `predictClass`: the winning class label
and the per-class confidence list. -/
structure Prediction where
  label : ℕ
  confidences : List (ℕ × ℚ)
deriving DecidableEq

/-- Modelled from the spec: the exemplar store of the external
knn-classifier library (`knnClassifier.create()`), which is not part
of this repository's sources.  Per spec section 4.3 it holds labeled
feature vectors per class, is append-only until an explicit clear, and
supports class enumeration. -/
structure KnnStore where
  examples : List (ℕ × Vec)
deriving DecidableEq

/-- Modelled from the spec: class enumeration — the number of classes
currently holding at least one exemplar. -/
def KnnStore.getNumClasses (st : KnnStore) : ℕ :=
  ((st.examples.map Prod.fst).dedup).length

/-- Modelled from the spec: `addExample(vector, classId)` appends the
vector to that class's exemplar list, consuming the vector. -/
def KnnStore.addExample (st : KnnStore) (v : Vec) (classId : ℕ) : KnnStore :=
  ⟨st.examples ++ [(classId, v)]⟩

/-- Modelled from the spec: `clearAllClasses` atomically empties every
class's exemplar list. -/
def KnnStore.clearAllClasses (_ : KnnStore) : KnnStore := ⟨[]⟩

/-- Squared Euclidean distance between two vectors. -/
def sqDist (u v : Vec) : ℚ :=
  ((List.zip u v).map (fun p => (p.1 - p.2) * (p.1 - p.2))).sum

/-- Modelled from the spec: `predictClass` as nearest-neighbor voting;
spec 4.3 leaves the metric as an implementation choice, here the
single nearest exemplar under squared Euclidean distance (first wins
on ties), with full confidence on the winning class.  Only invoked by
the component when the store is non-empty. -/
def KnnStore.predictClass (st : KnnStore) (v : Vec) : Prediction :=
  match st.examples with
  | [] => ⟨0, []⟩
  | ex :: rest =>
      let best := (ex :: rest).foldl
        (fun acc cand => if sqDist cand.2 v < sqDist acc.2 v then cand else acc) ex
      ⟨best.1, [(best.1, 1)]⟩

/-- One entry of the `classes` state array of TransferLearner
(id and sample count; the display name and color are presentation
only). -/
structure ClassEntry where
  id : ℕ
  count : ℕ
deriving DecidableEq

/-- The TransferLearner component state touched by the classifier
logic: the knn store, the class list with per-class counts, and the
latest prediction result (`none` is the Empty sentinel shown as
"Waiting for prediction data"). -/
structure TLState where
  classifier : KnnStore
  classes : List ClassEntry
  result : Option Prediction
deriving DecidableEq

/-- The initial TransferLearner state (lines 457-462): three declared
classes, all counts zero, empty store, no result. -/
def initTL : TLState :=
  ⟨⟨[]⟩, [⟨0, 0⟩, ⟨1, 0⟩, ⟨2, 0⟩], none⟩

/-- The user / loop actions that mutate the TransferLearner state.
`ready` packages the guard `net && classifier && readyState === 4`. -/
inductive TLAction where
  | addExample (ready : Bool) (classId : ℕ) (v : Vec)
  | predictTick (ready : Bool) (v : Vec)
  | clearAll
  | addClass

/-- One TransferLearner transition, translated from the component:
`addExample` (lines 484-504), the `predict` loop body (lines 507-523),
`clearAll` (lines 531-537) and `addClass` (lines 540-550). -/
def tlStep (s : TLState) : TLAction → TLState
  | TLAction.addExample ready classId v =>
      if ready then
        ⟨s.classifier.addExample v classId,
         s.classes.map (fun c => if c.id = classId then ⟨c.id, c.count + 1⟩ else c),
         s.result⟩
      else s
  | TLAction.predictTick ready v =>
      if ready && decide (0 < s.classifier.getNumClasses) then
        ⟨s.classifier, s.classes, some (s.classifier.predictClass v)⟩
      else s
  | TLAction.clearAll =>
      ⟨s.classifier.clearAllClasses, s.classes.map (fun c => ⟨c.id, 0⟩), none⟩
  | TLAction.addClass =>
      ⟨s.classifier, s.classes ++ [⟨s.classes.length, 0⟩], s.result⟩

/-- Run a list of TransferLearner actions from a state. -/
def runTL (s : TLState) : List TLAction → TLState
  | [] => s
  | a :: rest => runTL (tlStep s a) rest

/-- The empty-store / empty-result invariant is preserved by every
action. -/
lemma tlStep_inv (s : TLState) (a : TLAction)
    (h : s.classifier.examples = [] → s.result = none) :
    (tlStep s a).classifier.examples = [] → (tlStep s a).result = none := by
  cases a with
  | addExample ready classId v =>
      simp only [tlStep]
      split
      · intro hemp
        exact absurd hemp (by simp [KnnStore.addExample])
      · exact h
  | predictTick ready v =>
      simp only [tlStep]
      split
      · rename_i hcond
        intro hemp
        exfalso
        simp only [Bool.and_eq_true, decide_eq_true_eq] at hcond
        have hzero : s.classifier.getNumClasses = 0 := by
          simp only at hemp
          simp [KnnStore.getNumClasses, hemp]
        omega
      · exact h
  | clearAll =>
      intro _
      rfl
  | addClass =>
      intro hemp
      exact h hemp

/-- The invariant holds of every state reachable from one satisfying
it. -/
lemma runTL_inv (acts : List TLAction) :
    ∀ s : TLState, (s.classifier.examples = [] → s.result = none) →
      ((runTL s acts).classifier.examples = [] → (runTL s acts).result = none) := by
  induction acts with
  | nil => intro s h; exact h
  | cons a rest ih =>
      intro s h
      exact ih (tlStep s a) (tlStep_inv s a h)

/-! ## Claim theorems -/

/-- C1: in every execution of the detection loop of a single scheduler
instance, no two inference calls are ever outstanding simultaneously:
along the event trace of any run, an `issue` never occurs while a
previous call is unsettled, because `detect` awaits the result of
`model.detect` before re-arming the next tick. -/
theorem c1_nonoverlap (s : DetectorState) (envs : List TickEnv) :
    paced (runTrace s envs).2 = true :=
  paced_runTrace envs s

/-- Concrete scheduler state for the C2 counterexample: live mode,
model loaded, fresh fpsRef. -/
def stC2 : DetectorState := ⟨true, Mode.live, none, [], 0, false, ⟨0, 0, 0⟩⟩

/-- First tick of the C2 counterexample run, at t = 100 ms. -/
def envC2a : TickEnv := ⟨100, 4, false, false, 0, Except.ok [], false, false⟩

/-- Second tick of the C2 counterexample run, at t = 141 ms. -/
def envC2b : TickEnv := ⟨141, 4, false, false, 0, Except.ok [], false, false⟩

/-- C2, counterexample to the claim as stated: the scheduler issues two
inference calls at t = 100 and t = 141, only 41 ms apart, which is
less than 1000/24 ≈ 41.67 ms — the code's hard-coded threshold is 41,
not the exact minimum interval derived from the 24 fps cap. -/
theorem c2_counterexample :
    issueTimes (runTrace stC2 [envC2a, envC2b]).2 = [100, 141]
    ∧ (141 : ℚ) - 100 < 1000 / 24 := by
  constructor
  · norm_num [runTrace, detect, issueTimes, stC2, envC2a, envC2b, inferenceStep,
      applyAwait, applyResult, frameAvailable, rearmFlag]
  · norm_num

/-- C2 as amended: for the hard-coded threshold of 41 ms (the integer
approximation of 1000/24 the code uses at line 52), the scheduler
never issues two inference calls less than 41 ms apart, and whenever a
step finds elapsed time below 41 ms it performs no inference work and
only re-arms for the next tick. -/
theorem c2_frameSpacing :
    (∀ (s : DetectorState) (envs : List TickEnv),
      List.Pairwise (fun a b => a + 41 ≤ b) (issueTimes (runTrace s envs).2))
  ∧ (∀ (s : DetectorState) (e : TickEnv),
      s.isPaused = false → s.modelLoaded = true →
      e.now - s.fpsRef.lastFrameTime < 41 →
      detect s e = (s, ⟨[], true⟩)) := by
  constructor
  · intro s envs
    exact (issueTimes_spaced envs s).1
  · intro s e h1 h2 h3
    have hc : (s.isPaused || !s.modelLoaded) = false := by
      rw [h1, h2]
      rfl
    simp only [detect, hc, Bool.false_eq_true, if_false, if_pos h3]

/-- Concrete throttled state for the C2 witness: last frame at t = 100. -/
def stC2t : DetectorState := ⟨true, Mode.live, none, [], 0, false, ⟨100, 0, 0⟩⟩

/-- A tick 20 ms after the last frame, inside the throttle window. -/
def envC2t : TickEnv := ⟨120, 4, false, false, 0, Except.ok [], false, false⟩

/-- Witness for c2_frameSpacing: at elapsed = 20 ms < 41 ms the step
does nothing but re-arm. -/
theorem c2_frameSpacing_witness :
    detect stC2t envC2t = (stC2t, ⟨[], true⟩) :=
  c2_frameSpacing.2 stC2t envC2t rfl rfl (by norm_num [stC2t, envC2t])

/-- The detection delivered by the stale in-flight call of the C3
scenario. -/
def dC3 : Detection := ⟨1, 9/10, ⟨0, 0, 10, 10⟩⟩

/-- C3 scenario start state: live mode, model loaded, not paused. -/
def stC3 : DetectorState := ⟨true, Mode.live, none, [], 0, false, ⟨0, 0, 0⟩⟩

/-- C3 scenario tick: an inference is issued at t = 100 and, while it
is awaited, the user presses the mode-toggle button (switching to
upload mode and clearing predictions); the call then resolves with
`[dC3]`. -/
def envC3 : TickEnv := ⟨100, 4, false, false, 0, Except.ok [dC3], false, true⟩

/-- C3: the code violates the claim.  An inference issued before the
mode switch and resolving after it has its result applied to the new
source's state: `setPredictions(results)` runs unconditionally after
the await (line 81), with no epoch tag or staleness check, so the
post-switch state holds the stale detections `[dC3]` instead of the
cleared `[]`. -/
theorem c3_staleResultApplied :
    (detect stC3 envC3).1.mode = Mode.upload
    ∧ (detect stC3 envC3).1.predictions = [dC3]
    ∧ [dC3] ≠ ([] : List Detection) := by
  refine ⟨?_, ?_, ?_⟩ <;>
    norm_num [detect, stC3, envC3, inferenceStep, applyAwait, applyResult,
      frameAvailable, rearmFlag, toggleMode]

/-- C4: the overlay's raw display box agrees with the spec's cover-fit
formula (scale = max of the two ratios, centering offsets, affine box
mapping) whenever the source dimensions are nonzero; and at the
spec's test point sourceWidth = 640, sourceHeight = 480,
containerWidth = 800, containerHeight = 450 the scale is 5/4 = 1.25,
the centering offsetX is 0, and the box (100,100,50,50) maps to
rawLeft = 125 + offsetX. -/
theorem c4_coverFormula :
    (∀ (b : BBox) (vw vh cw ch : ℚ), vw ≠ 0 → vh ≠ 0 →
      coverRawStyle b vw vh cw ch = specRawStyle b vw vh cw ch)
  ∧ specScale 640 480 800 450 = 5 / 4
  ∧ specOffsetX 640 480 800 450 = 0
  ∧ (coverRawStyle ⟨100, 100, 50, 50⟩ 640 480 800 450).left
      = 125 + specOffsetX 640 480 800 450 := by
  have hmax : max ((800 : ℚ) / 640) ((450 : ℚ) / 480) = 5 / 4 := by
    rw [max_eq_left (by norm_num)]
    norm_num
  refine ⟨?_, ?_, ?_, ?_⟩
  · intro b vw vh cw ch h1 h2
    rfl
  · rw [specScale, hmax]
  · rw [specOffsetX, specScale, hmax]
    norm_num
  · show (100 : ℚ) * max ((800 : ℚ) / 640) ((450 : ℚ) / 480)
        + (800 - 640 * max ((800 : ℚ) / 640) ((450 : ℚ) / 480)) / 2
        = 125 + specOffsetX 640 480 800 450
    rw [specOffsetX, specScale, hmax]
    norm_num

/-- Witness for c4_coverFormula at the spec's concrete geometry. -/
theorem c4_coverFormula_witness :
    coverRawStyle ⟨100, 100, 50, 50⟩ 640 480 800 450
      = specRawStyle ⟨100, 100, 50, 50⟩ 640 480 800 450 :=
  c4_coverFormula.1 ⟨100, 100, 50, 50⟩ 640 480 800 450 (by norm_num) (by norm_num)

/-- C5, counterexample to the claim as stated: for the raw box with
left 0 and width 90 in a 100 × 100 container, the clamped left is the
margin 10 but left + width = 100 exceeds containerWidth − margin = 90:
the clamp only repositions the box, it never shrinks the `width`
field, so boxes wider than containerWidth − 2·margin violate the
stated inequality. -/
theorem c5_counterexample :
    ¬((clampStyle ⟨0, 0, 90, 90⟩ 100 100).left
        + (clampStyle ⟨0, 0, 90, 90⟩ 100 100).width ≤ 100 - 10) := by
  show ¬(max 10 (min 0 (100 - 90 - 10)) + (90 : ℚ) ≤ 100 - 10)
  norm_num

/-- C5 as amended: after clamping with margin 10 the output always
satisfies margin ≤ left and margin ≤ top, and the *effective rendered*
extent — the `width`/`height` capped by the `maxWidth`/`maxHeight`
fields the code also emits — satisfies
left + min(width, maxWidth) ≤ containerWidth − margin and
top + min(height, maxHeight) ≤ containerHeight − margin, for every box
and every container size. -/
theorem c5_clampedInsideFrame :
    ∀ (raw : RawStyle) (cw ch : ℚ),
      10 ≤ (clampStyle raw cw ch).left
      ∧ (clampStyle raw cw ch).left
          + min (clampStyle raw cw ch).width (clampStyle raw cw ch).maxWidth ≤ cw - 10
      ∧ 10 ≤ (clampStyle raw cw ch).top
      ∧ (clampStyle raw cw ch).top
          + min (clampStyle raw cw ch).height (clampStyle raw cw ch).maxHeight ≤ ch - 10 := by
  intro raw cw ch
  refine ⟨le_max_left _ _, ?_, le_max_left _ _, ?_⟩
  · have h := min_le_right raw.width
      (cw - max 10 (min raw.left (cw - raw.width - 10)) - 10)
    show max 10 (min raw.left (cw - raw.width - 10))
        + min raw.width (cw - max 10 (min raw.left (cw - raw.width - 10)) - 10) ≤ cw - 10
    linarith
  · have h := min_le_right raw.height
      (ch - max 10 (min raw.top (ch - raw.height - 10)) - 10)
    show max 10 (min raw.top (ch - raw.height - 10))
        + min raw.height (ch - max 10 (min raw.top (ch - raw.height - 10)) - 10) ≤ ch - 10
    linarith

/-- The element of the C8 counterexample: nonzero source dimensions
640 × 480, but a container whose client width is zero (present in the
DOM, not yet laid out). -/
def elC8z : SourceElement := ⟨640, 0, 480, 0, some (0, 450)⟩

/-- C8, counterexample to the claim as stated: when the container is
present but reports zero client width — the spec's own "not yet laid
out" case — the overlay does **not** signal unmappable: the guard at
line 200 checks only `!container`, never the container's client
dimensions, so the mapper still produces a (degenerate) clamped style
and the detection is rendered rather than skipped. -/
theorem c8_counterexample :
    elC8z.container = some (0, 450)
    ∧ (overlayStyle (some elC8z) ⟨100, 100, 50, 50⟩).isSome = true := by
  constructor
  · rfl
  · norm_num [overlayStyle, elC8z, effWidth, effHeight]

/-- C8 as amended: the overlay signals unmappable (returns `none`,
skipping that detection for the frame only) exactly when the element
is missing, the container element is missing, or an effective source
dimension is zero — the cases that would divide by zero or make the
geometry undefined; a container that is present is used with whatever
client dimensions it reports (possibly zero, before layout), the box
still being mapped, since all divisions are by the (nonzero) effective
source dimensions.  The mapping is a pure function of the current
frame's element, so a later frame with dimensions available renders
again. -/
theorem c8_unmappableGuard :
    ∀ (el : SourceElement) (b : BBox),
      (overlayStyle none b = none)
      ∧ (el.container = none → overlayStyle (some el) b = none)
      ∧ (effWidth el = 0 ∨ effHeight el = 0 → overlayStyle (some el) b = none)
      ∧ (∀ (cw ch : ℚ), el.container = some (cw, ch) →
          effWidth el ≠ 0 → effHeight el ≠ 0 →
          overlayStyle (some el) b
            = some (clampStyle (coverRawStyle b (effWidth el) (effHeight el) cw ch) cw ch)) := by
  intro el b
  refine ⟨rfl, ?_, ?_, ?_⟩
  · intro h
    simp [overlayStyle, h]
  · intro h
    cases hcont : el.container with
    | none => simp [overlayStyle, hcont]
    | some p =>
        obtain ⟨cw, ch⟩ := p
        simp only [overlayStyle, hcont]
        rw [if_pos h]
  · intro cw ch hcont hw hh
    simp only [overlayStyle, hcont]
    rw [if_neg]
    push_neg
    exact ⟨hw, hh⟩

/-- The webcam element of the C8 witness: video dimensions 640 × 480,
container laid out at 800 × 450. -/
def elC8 : SourceElement := ⟨640, 0, 480, 0, some (800, 450)⟩

/-! Further step lemmas for the error-handling, fps and pause claims. -/

lemma applyResult_fps (s : DetectorState) (r : Except Unit (List Detection)) :
    (applyResult s r).fps = s.fps := by
  cases r <;> rfl

lemma applyAwait_fps (s : DetectorState) (e : TickEnv) :
    (applyAwait s e).fps = s.fps := by
  unfold applyAwait
  split <;> split <;> rfl

lemma applyResult_isPaused (s : DetectorState) (r : Except Unit (List Detection)) :
    (applyResult s r).isPaused = s.isPaused := by
  cases r <;> rfl

lemma applyAwait_isPaused_of_pause (s : DetectorState) (e : TickEnv)
    (hp : e.pauseDuringAwait = true) : (applyAwait s e).isPaused = true := by
  unfold applyAwait
  rw [hp]
  simp

lemma detect_of_issues (s : DetectorState) (e : TickEnv) (h : issues s e = true) :
    detect s e = (inferenceStep s e, ⟨[Ev.issue e.now, Ev.settle], rearmFlag s⟩) := by
  unfold issues at h
  unfold detect
  split at h
  · simp at h
  · split at h
    · simp at h
    · rename_i h1 h2
      rw [if_neg h1, if_neg h2, if_pos h]

lemma inferenceStep_predictions_ok (s : DetectorState) (e : TickEnv)
    (results : List Detection) (hok : e.inferResult = Except.ok results) :
    (inferenceStep s e).predictions = results := by
  unfold inferenceStep
  rw [hok]
  rfl

lemma inferenceStep_predictions_error (s : DetectorState) (e : TickEnv)
    (herr : e.inferResult = Except.error ()) (hsw : e.switchDuringAwait = false) :
    (inferenceStep s e).predictions = s.predictions := by
  unfold inferenceStep applyAwait
  rw [herr, hsw]
  simp only [Bool.false_eq_true, if_false]
  split <;> split <;> rfl

lemma inferenceStep_isPaused_of_pause (s : DetectorState) (e : TickEnv)
    (hp : e.pauseDuringAwait = true) : (inferenceStep s e).isPaused = true := by
  unfold inferenceStep
  rw [applyResult_isPaused]
  exact applyAwait_isPaused_of_pause _ _ hp

lemma inferenceStep_frameCount (s : DetectorState) (e : TickEnv) :
    (inferenceStep s e).fpsRef.frameCount =
      if 1000 ≤ e.now - s.fpsRef.lastFpsTime then 0 else s.fpsRef.frameCount + 1 := by
  unfold inferenceStep
  rw [applyResult_fpsRef, applyAwait_fpsRef]
  split <;> rfl

lemma inferenceStep_fps (s : DetectorState) (e : TickEnv) :
    (inferenceStep s e).fps =
      if 1000 ≤ e.now - s.fpsRef.lastFpsTime then s.fpsRef.frameCount + 1 else s.fps := by
  unfold inferenceStep
  rw [applyResult_fps, applyAwait_fps]
  split <;> rfl

lemma inferenceStep_lastFpsTime (s : DetectorState) (e : TickEnv) :
    (inferenceStep s e).fpsRef.lastFpsTime =
      if 1000 ≤ e.now - s.fpsRef.lastFpsTime then e.now else s.fpsRef.lastFpsTime := by
  unfold inferenceStep
  rw [applyResult_fpsRef, applyAwait_fpsRef]
  split <;> rfl

/-- Witness for c8_unmappableGuard: with dimensions available the
overlay maps the box instead of skipping it. -/
theorem c8_unmappableGuard_witness :
    overlayStyle (some elC8) ⟨100, 100, 50, 50⟩
      = some (clampStyle
          (coverRawStyle ⟨100, 100, 50, 50⟩ (effWidth elC8) (effHeight elC8) 800 450)
          800 450) :=
  (c8_unmappableGuard elC8 ⟨100, 100, 50, 50⟩).2.2.2 800 450 rfl
    (by norm_num [effWidth, elC8]) (by norm_num [effHeight, elC8])

/-- C6: in every run of the TransferLearner, whenever the exemplar
store is empty across all classes the prediction result is the Empty
sentinel (`none`) — the prediction loop's `getNumClasses() > 0` guard
keeps `predictClass` from running, so nothing is thrown and no
prediction is produced; and `clearAll` atomically empties every
class's exemplar list, resets every per-class count to zero and resets
the result, after which a prediction tick on any vector still yields
the sentinel. -/
theorem c6_emptyPredict :
    (∀ (acts : List TLAction),
      (runTL initTL acts).classifier.examples = [] → (runTL initTL acts).result = none)
  ∧ (∀ (s : TLState),
      (tlStep s TLAction.clearAll).classifier.examples = []
      ∧ (∀ c ∈ (tlStep s TLAction.clearAll).classes, c.count = 0)
      ∧ (tlStep s TLAction.clearAll).result = none
      ∧ (∀ (ready : Bool) (v : Vec),
          (tlStep (tlStep s TLAction.clearAll) (TLAction.predictTick ready v)).result
            = none)) := by
  constructor
  · intro acts
    exact runTL_inv acts initTL (fun _ => rfl)
  · intro s
    refine ⟨rfl, ?_, rfl, ?_⟩
    · intro c hc
      simp only [tlStep, List.mem_map] at hc
      obtain ⟨c0, _, hmap⟩ := hc
      rw [← hmap]
    · intro ready v
      simp [tlStep, KnnStore.clearAllClasses, KnnStore.getNumClasses]

/-- Witness for c6_emptyPredict: after a clearAll from the initial
state the store is empty and the result is the sentinel. -/
theorem c6_emptyPredict_witness :
    (runTL initTL [TLAction.clearAll]).result = none :=
  c6_emptyPredict.1 [TLAction.clearAll] rfl

/-- C7: a cycle whose inference call fails is caught inside the step —
the step function is total, applies no detections (the predictions
state is left untouched), and still reports the call as issued and
settled; the loop re-arms exactly per the closure's mode condition, in
particular it continues (re-arms) in live mode and uploaded-video
mode.  The `console.error` log is an unobserved side effect. -/
theorem c7_errorContinues :
    ∀ (s : DetectorState) (e : TickEnv),
      issues s e = true →
      e.inferResult = Except.error () →
      e.switchDuringAwait = false →
      (detect s e).1.predictions = s.predictions
      ∧ (detect s e).2.events = [Ev.issue e.now, Ev.settle]
      ∧ (detect s e).2.rearm = rearmFlag s
      ∧ ((s.mode = Mode.live ∨ (s.mode = Mode.upload ∧ s.mediaFile = some MediaType.video)) →
          (detect s e).2.rearm = true) := by
  intro s e hiss herr hsw
  rw [detect_of_issues s e hiss]
  refine ⟨inferenceStep_predictions_error s e herr hsw, rfl, rfl, ?_⟩
  intro hmode
  rcases hmode with hlive | ⟨hup, hvid⟩
  · simp [rearmFlag, hlive]
  · simp [rearmFlag, hup, hvid]

/-- The detection shown before the failing cycle of the C7 witness. -/
def dC7 : Detection := ⟨2, 1/2, ⟨5, 5, 20, 20⟩⟩

/-- C7 witness start state: live mode, one detection on screen. -/
def stC7 : DetectorState := ⟨true, Mode.live, none, [dC7], 3, false, ⟨0, 500, 2⟩⟩

/-- C7 witness tick: the inference call at t = 100 fails. -/
def envC7 : TickEnv := ⟨100, 4, false, false, 0, Except.error (), false, false⟩

/-- Witness for c7_errorContinues: the failing cycle leaves the
predictions untouched and re-arms the loop. -/
theorem c7_errorContinues_witness :
    (detect stC7 envC7).1.predictions = stC7.predictions
    ∧ (detect stC7 envC7).2.rearm = true := by
  have h := c7_errorContinues stC7 envC7
    (by norm_num [issues, stC7, envC7, frameAvailable]) rfl rfl
  exact ⟨h.1, h.2.2.2 (Or.inl rfl)⟩

/-- C9 scenario state: fresh counters, live mode. -/
def stC9 : DetectorState := ⟨true, Mode.live, none, [], 0, false, ⟨0, 0, 0⟩⟩

/-- C9 scenario tick: at t = 1000 the window elapses and the inference
call fails. -/
def envC9 : TickEnv := ⟨1000, 4, false, false, 0, Except.error (), false, false⟩

/-- C9, counterexample to the claim as stated: in a run containing a
single cycle whose inference call fails (so zero inferences complete),
the counter is nevertheless incremented and the window emits an
observed rate of 1 — the code increments `frameCount` before issuing
the call (line 72), so failed calls are counted too, refuting
"incremented once for every completed inference (and only for
completed inferences)". -/
theorem c9_counterexample :
    envC9.inferResult = Except.error ()
    ∧ (detect stC9 envC9).1.fps = 1
    ∧ (detect stC9 envC9).1.predictions = [] := by
  refine ⟨rfl, ?_, ?_⟩ <;>
    norm_num [detect, stC9, envC9, inferenceStep, applyAwait, applyResult,
      frameAvailable, rearmFlag]

/-- C9 as amended: the counter is incremented once for every *issued*
inference call — completed or failed, the increment happening before
the call resolves — and on a cycle that issues a call and finds at
least 1000 ms elapsed since the window start, the counter (including
the current increment) is emitted as the observed rate, reset to zero,
and the window restarts at the current time; cycles that issue no call
leave counter, rate and window untouched. -/
theorem c9_fpsWindowCounting :
    ∀ (s : DetectorState) (e : TickEnv),
      (detect s e).2.events = (if issues s e then [Ev.issue e.now, Ev.settle] else [])
      ∧ (detect s e).1.fpsRef.frameCount =
          (if issues s e then
            if 1000 ≤ e.now - s.fpsRef.lastFpsTime then 0 else s.fpsRef.frameCount + 1
          else s.fpsRef.frameCount)
      ∧ (detect s e).1.fps =
          (if issues s e then
            if 1000 ≤ e.now - s.fpsRef.lastFpsTime then s.fpsRef.frameCount + 1 else s.fps
          else s.fps)
      ∧ (detect s e).1.fpsRef.lastFpsTime =
          (if issues s e then
            if 1000 ≤ e.now - s.fpsRef.lastFpsTime then e.now else s.fpsRef.lastFpsTime
          else s.fpsRef.lastFpsTime) := by
  intro s e
  refine ⟨detect_events s e, ?_, ?_, ?_⟩
  · by_cases h : issues s e = true
    · rw [detect_of_issues s e h, if_pos h]
      exact inferenceStep_frameCount s e
    · rw [if_neg h]
      unfold issues at h
      unfold detect
      split at h
      · rename_i h1
        rw [if_pos h1]
      · rename_i h1
        split at h
        · rename_i h2
          rw [if_neg h1, if_pos h2]
        · rename_i h2
          rw [if_neg h1, if_neg h2, if_neg (by simpa using h)]
  · by_cases h : issues s e = true
    · rw [detect_of_issues s e h, if_pos h]
      exact inferenceStep_fps s e
    · rw [if_neg h]
      unfold issues at h
      unfold detect
      split at h
      · rename_i h1
        rw [if_pos h1]
      · rename_i h1
        split at h
        · rename_i h2
          rw [if_neg h1, if_pos h2]
        · rename_i h2
          rw [if_neg h1, if_neg h2, if_neg (by simpa using h)]
  · by_cases h : issues s e = true
    · rw [detect_of_issues s e h, if_pos h]
      exact inferenceStep_lastFpsTime s e
    · rw [if_neg h]
      unfold issues at h
      unfold detect
      split at h
      · rename_i h1
        rw [if_pos h1]
      · rename_i h1
        split at h
        · rename_i h2
          rw [if_neg h1, if_pos h2]
        · rename_i h2
          rw [if_neg h1, if_neg h2, if_neg (by simpa using h)]

/-- C10: pausing after an inference call has been issued but before it
resolves does not discard the in-flight result — the resolved
detections are still applied to the predictions state and the paused
flag is set; pausing only prevents later steps from starting: a step
that begins with `isPaused = true` returns immediately, issuing
nothing and not re-arming. -/
theorem c10_pauseKeepsInFlightResult :
    (∀ (s : DetectorState) (e : TickEnv) (results : List Detection),
      issues s e = true → e.pauseDuringAwait = true →
      e.inferResult = Except.ok results →
      (detect s e).1.predictions = results ∧ (detect s e).1.isPaused = true)
  ∧ (∀ (s : DetectorState) (e : TickEnv),
      s.isPaused = true → detect s e = (s, ⟨[], false⟩)) := by
  constructor
  · intro s e results hiss hp hok
    rw [detect_of_issues s e hiss]
    exact ⟨inferenceStep_predictions_ok s e results hok,
           inferenceStep_isPaused_of_pause s e hp⟩
  · intro s e hp
    unfold detect
    rw [if_pos]
    rw [hp]
    rfl

/-- The detection resolved in flight in the C10 witness. -/
def dC10 : Detection := ⟨3, 3/4, ⟨1, 2, 3, 4⟩⟩

/-- C10 witness start state: live mode, running. -/
def stC10 : DetectorState := ⟨true, Mode.live, none, [], 0, false, ⟨0, 0, 0⟩⟩

/-- C10 witness tick: inference issued at t = 50, the pause button is
pressed during the await, the call then resolves with `[dC10]`. -/
def envC10 : TickEnv := ⟨50, 4, false, false, 0, Except.ok [dC10], true, false⟩

/-- Witness for c10_pauseKeepsInFlightResult: the in-flight result is
applied even though the scheduler was paused before it resolved. -/
theorem c10_pauseKeepsInFlightResult_witness :
    (detect stC10 envC10).1.predictions = [dC10]
    ∧ (detect stC10 envC10).1.isPaused = true :=
  c10_pauseKeepsInFlightResult.1 stC10 envC10 [dC10]
    (by norm_num [issues, stC10, envC10, frameAvailable]) rfl rfl

end NV
